import Mathlib

/-
Shallow embedding of src/main.c from the mtb-example-hal-crypto-trng
repository: a firmware demo that, on a carriage-return key press, draws
32-bit words from a hardware TRNG, normalizes each 7-bit candidate byte
into the visible ASCII band, and prints an 8-character one-time password.

Machine integers are modelled as Nat with explicit truncation where the C
types matter: the TRNG word is a uint32_t (taken mod 2 to the 32), the
password characters and UART byte are uint8_t (all arithmetic here stays
far below 256, with the mod written where the C stores into a uint8_t).
-/

namespace TrngOtp

/-- Macro ASCII_7BIT_MASK from src/main.c line 51. -/
def ASCII_7BIT_MASK : Nat := 0x7F

/-- Macro PASSWORD_LENGTH from src/main.c line 53. -/
def PASSWORD_LENGTH : Nat := 8

/-- Macro ASCII_VISIBLE_CHARACTER_START from src/main.c line 54. -/
def ASCII_VISIBLE_CHARACTER_START : Nat := 33

/-- Macro ASCII_RETURN_CARRIAGE from src/main.c line 55. -/
def ASCII_RETURN_CARRIAGE : Nat := 0x0D

/-- Function check_range from src/main.c lines 226-233: the uint8_t
argument is first reduced mod 256 (C parameter passing), and the
uint8_t addition is reduced mod 256 (a no-op here since the branch
guarantees the sum is below 66). -/
def check_range (value : Nat) : Nat :=
  let v := value % 256
  if v < ASCII_VISIBLE_CHARACTER_START then
    (v + ASCII_VISIBLE_CHARACTER_START) % 256
  else
    v

/-- Inner loop body of generate_password, src/main.c lines 189-196: for
each of the remaining j iterations, extract the byte of random_val at
bit offset bit_position, mask it to 7 bits, pass it through check_range
and write it at the current index of the password buffer; the index and
the bit offset each advance per iteration. Returns the (buffer index,
value written) pairs in program order. -/
def inner_writes (random_val : Nat) : Nat → Nat → Nat → List (Nat × Nat)
  | _, _, 0 => []
  | bit_position, index, j + 1 =>
      (index, check_range ((random_val >>> bit_position) &&& ASCII_7BIT_MASK))
        :: inner_writes random_val (bit_position + 8) (index + 1) j

/-- Outer loop of generate_password, src/main.c lines 182-197: while
index is below PASSWORD_LENGTH, draw one 32-bit word from the word
stream ws (word number k), run the 4-iteration inner loop, and continue
with the index advanced by 4. Returns all buffer writes of the loop in
order, paired with the final value of index. -/
def outer_writes (ws : Nat → Nat) (k index : Nat) : List (Nat × Nat) × Nat :=
  if h : index < PASSWORD_LENGTH then
    let random_val := ws k % 2 ^ 32
    let w := inner_writes random_val 0 index 4
    let rest := outer_writes ws (k + 1) (index + 4)
    (w ++ rest.1, rest.2)
  else
    ([], index)
termination_by PASSWORD_LENGTH - index
decreasing_by omega

/-- Apply a list of (index, value) writes to a buffer, in order, as the
C assignments password[index] = value do. -/
def apply_writes (buf : List Nat) (writes : List (Nat × Nat)) : List Nat :=
  writes.foldl (fun b w => b.set w.1 w.2) buf

/-- Contents of the local array password after generate_password has run
its loop and stored the terminating 0 (src/main.c lines 171-200): the
array starts as 9 zero bytes, receives the loop writes, then the write
of 0 at the final index. -/
def password_buffer (ws : Nat → Nat) : List Nat :=
  let r := outer_writes ws 0 0
  apply_writes (List.replicate (PASSWORD_LENGTH + 1) 0) (r.1 ++ [(r.2, 0)])

/-- Characters actually transmitted for the %s field of the printf at
src/main.c line 203: the buffer bytes up to the first 0 byte. -/
def printed_chars (buf : List Nat) : List Nat :=
  buf.takeWhile (fun c => c != 0)

/-- The three console messages generate_password can print, src/main.c
lines 203-205: the one-time password line (carrying the transmitted
characters), the fixed new-password prompt, and the fixed separator
header SCREEN_HEADER1. -/
inductive OutMsg where
  | otp (chars : List Nat)
  | prompt
  | header

/-- Observable events of one generate_password call, in program order:
the TRNG acquisition attempt with its outcome, each printf, and the
release of the TRNG block. -/
inductive TrngEvent where
  | acquire (ok : Bool)
  | print (msg : OutMsg)
  | release

/-- Function generate_password from src/main.c lines 163-210, as the
event trace of one call: cyhal_trng_init is attempted first; when it
succeeds the loop fills the password buffer, the terminator is stored,
the three messages are printed and cyhal_trng_free is called; when it
fails the function body is skipped entirely. The parameter trng_ok is
the outcome of cyhal_trng_init and ws the stream of words returned by
successive cyhal_trng_generate calls. -/
def generate_password (trng_ok : Bool) (ws : Nat → Nat) : List TrngEvent :=
  if trng_ok then
    [TrngEvent.acquire true,
     TrngEvent.print (OutMsg.otp (printed_chars (password_buffer ws))),
     TrngEvent.print OutMsg.prompt,
     TrngEvent.print OutMsg.header,
     TrngEvent.release]
  else
    [TrngEvent.acquire false]

/-- The console output contained in a trace of events. -/
def outputs (t : List TrngEvent) : List OutMsg :=
  t.filterMap (fun e =>
    match e with
    | TrngEvent.print m => some m
    | _ => none)

/-- Number of TRNG acquisition attempts (cyhal_trng_init calls) in a
trace, successful or not. -/
def acquire_attempts (t : List TrngEvent) : Nat :=
  t.countP (fun e =>
    match e with
    | TrngEvent.acquire _ => true
    | _ => false)

/-- Number of TRNG releases (cyhal_trng_free calls) in a trace. -/
def release_count (t : List TrngEvent) : Nat :=
  t.countP (fun e =>
    match e with
    | TrngEvent.release => true
    | _ => false)

/-- Number of TRNG handles still held after a trace has run: successful
acquires increment, releases decrement. -/
def held_after (t : List TrngEvent) : Nat :=
  t.foldl (fun h e =>
    match e with
    | TrngEvent.acquire true => h + 1
    | TrngEvent.acquire false => h
    | TrngEvent.print _ => h
    | TrngEvent.release => h - 1) 0

/-- Result of one cyhal_uart_getc call in the main loop: a successfully
read byte, or a failed read (nothing available within the timeout). -/
inductive ReadResult where
  | ok (b : Nat)
  | err

/-- Environment of one iteration of the main polling loop: the UART read
outcome, and — should generate_password be invoked — the outcome of its
TRNG acquisition and the words its TRNG would produce. -/
structure LoopEnv where
  read : ReadResult
  trng_ok : Bool
  words : Nat → Nat

/-- One iteration of the for(;;) loop in main, src/main.c lines 137-148:
on a successful read the byte is stored into the uint8_t variable
uart_read_value and compared with ASCII_RETURN_CARRIAGE; on a match
generate_password runs, otherwise nothing happens; a failed read also
does nothing. -/
def loop_step (e : LoopEnv) : List TrngEvent :=
  match e.read with
  | ReadResult.ok b =>
      if b % 256 = ASCII_RETURN_CARRIAGE then
        generate_password e.trng_ok e.words
      else
        []
  | ReadResult.err => []

/-- Console output of a finite prefix of the main polling loop. -/
def run_loop (es : List LoopEnv) : List OutMsg :=
  match es with
  | [] => []
  | e :: rest => outputs (loop_step e) ++ run_loop rest

/-- Normalization of the earlier revision of generate_password,
src/main.c lines 415-431 of the appended earlier file: the drawn word is
masked to 7 bits, then values below 33 are raised by 33 and values at or
above 127 are lowered by 33. The argument is the already-masked value
random_val. -/
def normalize_old (random_val : Nat) : Nat :=
  if random_val < 33 then
    random_val + 33
  else if 127 ≤ random_val then
    random_val - 33
  else
    random_val

/-- An all-zero word stream, used to instantiate universally quantified
statements at a concrete input. -/
def zero_words : Nat → Nat := fun _ => 0

/-- A concrete loop environment: carriage return read, TRNG acquisition
fails. -/
def env_cr_fail : LoopEnv :=
  { read := ReadResult.ok 13, trng_ok := false, words := zero_words }

/-- A concrete loop environment: carriage return read, TRNG acquisition
succeeds, all-zero words. -/
def env_cr_ok : LoopEnv :=
  { read := ReadResult.ok 13, trng_ok := true, words := zero_words }

/-- A word stream every word of which is 127, the smallest TRNG output
whose low candidate byte is the uncorrected value 127. -/
def words127 : Nat → Nat := fun _ => 127

lemma inner_writes_eval (w i : Nat) :
    inner_writes w 0 i 4 =
      [(i, check_range ((w >>> 0) &&& ASCII_7BIT_MASK)),
       (i + 1, check_range ((w >>> 8) &&& ASCII_7BIT_MASK)),
       (i + 2, check_range ((w >>> 16) &&& ASCII_7BIT_MASK)),
       (i + 3, check_range ((w >>> 24) &&& ASCII_7BIT_MASK))] := by
  simp [inner_writes]

lemma outer_writes_eval (ws : Nat → Nat) :
    outer_writes ws 0 0 =
      (inner_writes (ws 0 % 2 ^ 32) 0 0 4 ++ inner_writes (ws 1 % 2 ^ 32) 0 4 4,
       8) := by
  rw [outer_writes, outer_writes, outer_writes]
  norm_num [PASSWORD_LENGTH]

lemma le_check_range (v : Nat) : 33 ≤ check_range v := by
  simp only [check_range, ASCII_VISIBLE_CHARACTER_START]
  split <;> omega

lemma check_range_bne_zero (v : Nat) : (check_range v != 0) = true := by
  have h := le_check_range v
  simp only [bne_iff_ne, ne_eq]
  omega

lemma password_buffer_eval (ws : Nat → Nat) :
    password_buffer ws =
      [check_range (((ws 0 % 2 ^ 32) >>> 0) &&& ASCII_7BIT_MASK),
       check_range (((ws 0 % 2 ^ 32) >>> 8) &&& ASCII_7BIT_MASK),
       check_range (((ws 0 % 2 ^ 32) >>> 16) &&& ASCII_7BIT_MASK),
       check_range (((ws 0 % 2 ^ 32) >>> 24) &&& ASCII_7BIT_MASK),
       check_range (((ws 1 % 2 ^ 32) >>> 0) &&& ASCII_7BIT_MASK),
       check_range (((ws 1 % 2 ^ 32) >>> 8) &&& ASCII_7BIT_MASK),
       check_range (((ws 1 % 2 ^ 32) >>> 16) &&& ASCII_7BIT_MASK),
       check_range (((ws 1 % 2 ^ 32) >>> 24) &&& ASCII_7BIT_MASK),
       0] := by
  simp [password_buffer, outer_writes_eval, inner_writes_eval, apply_writes,
        PASSWORD_LENGTH, List.replicate, List.set]

lemma printed_chars_eval (ws : Nat → Nat) :
    printed_chars (password_buffer ws) =
      [check_range (((ws 0 % 2 ^ 32) >>> 0) &&& ASCII_7BIT_MASK),
       check_range (((ws 0 % 2 ^ 32) >>> 8) &&& ASCII_7BIT_MASK),
       check_range (((ws 0 % 2 ^ 32) >>> 16) &&& ASCII_7BIT_MASK),
       check_range (((ws 0 % 2 ^ 32) >>> 24) &&& ASCII_7BIT_MASK),
       check_range (((ws 1 % 2 ^ 32) >>> 0) &&& ASCII_7BIT_MASK),
       check_range (((ws 1 % 2 ^ 32) >>> 8) &&& ASCII_7BIT_MASK),
       check_range (((ws 1 % 2 ^ 32) >>> 16) &&& ASCII_7BIT_MASK),
       check_range (((ws 1 % 2 ^ 32) >>> 24) &&& ASCII_7BIT_MASK)] := by
  simp [printed_chars, password_buffer_eval, List.takeWhile, check_range_bne_zero]

/-- C1: for every 7-bit candidate byte v, check_range returns v + 33
when v < 33 and v unchanged when v >= 33; in particular it maps 0 to 33,
32 to 65, 33 to 33, 126 to 126 and 127 to 127. -/
theorem check_range_on_7bit :
    (∀ v : Nat, v < 128 →
      (v < 33 → check_range v = v + 33) ∧ (33 ≤ v → check_range v = v)) ∧
    check_range 0 = 33 ∧ check_range 32 = 65 ∧ check_range 33 = 33 ∧
    check_range 126 = 126 ∧ check_range 127 = 127 := by
  decide

theorem check_range_on_7bit_witness : check_range 5 = 5 + 33 :=
  (check_range_on_7bit.1 5 (by decide)).1 (by decide)

/-- C9: range correction is deterministic — applying check_range twice
to the same byte yields the same output character. -/
theorem check_range_deterministic (v1 v2 : Nat) (h : v1 = v2) :
    check_range v1 = check_range v2 := by
  rw [h]

theorem check_range_deterministic_witness :
    check_range 77 = check_range 77 :=
  check_range_deterministic 77 77 rfl

/-- C10: the current normalization check_range and the normalization of
the earlier revision agree on every input in [0,126] and differ exactly
at 127, where the current revision yields 127 and the earlier one 94. -/
theorem check_range_vs_old_revision :
    (∀ v : Nat, v < 127 → check_range v = normalize_old v) ∧
    check_range 127 = 127 ∧ normalize_old 127 = 94 := by
  refine ⟨?_, by decide, by decide⟩
  decide

theorem check_range_vs_old_revision_witness :
    check_range 50 = normalize_old 50 :=
  check_range_vs_old_revision.1 50 (by decide)

/-- C5: every drawn 32-bit word yields exactly 4 candidate bytes, taken
at bit offsets 0, 8, 16 and 24, each equal to the word shifted by the
offset and masked to 7 bits, hence at most 127; the inner loop writes
exactly the range corrections of those four candidates. -/
theorem candidate_extraction (w i : Nat) :
    (inner_writes w 0 i 4).length = 4 ∧
    inner_writes w 0 i 4 =
      [(i, check_range ((w >>> 0) &&& ASCII_7BIT_MASK)),
       (i + 1, check_range ((w >>> 8) &&& ASCII_7BIT_MASK)),
       (i + 2, check_range ((w >>> 16) &&& ASCII_7BIT_MASK)),
       (i + 3, check_range ((w >>> 24) &&& ASCII_7BIT_MASK))] ∧
    (∀ off : Nat, (w >>> off) &&& ASCII_7BIT_MASK ≤ 127) := by
  refine ⟨by simp [inner_writes_eval], inner_writes_eval w i, fun off => ?_⟩
  exact Nat.and_le_right

/-- C3: for every word stream, a successful generate_password call
emits exactly 8 password characters; the loop ends with index 8, so the
0 terminator is stored at index 8, immediately after the 8th character,
inside the 9-byte buffer. -/
theorem password_exactly_8 (ws : Nat → Nat) :
    (printed_chars (password_buffer ws)).length = 8 ∧
    (outer_writes ws 0 0).2 = 8 ∧
    (password_buffer ws).length = 9 ∧
    (password_buffer ws)[8]? = some 0 := by
  refine ⟨?_, ?_, ?_, ?_⟩
  · simp [printed_chars_eval]
  · simp [outer_writes_eval]
  · simp [password_buffer_eval]
  · simp [password_buffer_eval]

/-- C7: during one generation call the character writes land exactly at
buffer indices 0 through 7, in order — no character write exceeds index
7 — and the terminator write occurs at index 8. -/
theorem writes_within_bounds (ws : Nat → Nat) :
    (outer_writes ws 0 0).1.map Prod.fst = [0, 1, 2, 3, 4, 5, 6, 7] ∧
    (outer_writes ws 0 0).2 = 8 := by
  constructor
  · simp [outer_writes_eval, inner_writes_eval]
  · simp [outer_writes_eval]

/-- C2 is refuted by the code: with every TRNG word equal to 127, the
candidate byte 127 passes through check_range unchanged, so the emitted
password is [127, 33, 33, 33, 127, 33, 33, 33] and its first character
lies outside the visible band [33,126]. -/
theorem otp_char_127_outside_band :
    check_range 127 = 127 ∧
    printed_chars (password_buffer words127) =
      [127, 33, 33, 33, 127, 33, 33, 33] ∧
    ¬(∀ c ∈ printed_chars (password_buffer words127), 33 ≤ c ∧ c ≤ 126) := by
  refine ⟨by decide, ?_, ?_⟩
  · simp only [printed_chars_eval]
    decide
  · simp only [printed_chars_eval]
    decide

/-- C4: when TRNG acquisition fails at the start of generate_password,
the triggering loop iteration prints nothing at all — its trace is the
lone failed acquisition — the loop output is exactly that of the
remaining iterations, and a later carriage-return iteration attempts
acquisition again. -/
theorem trng_failure_no_output (e e2 : LoopEnv) (es : List LoopEnv) (b b2 : Nat)
    (h1 : e.read = ReadResult.ok b) (hb : b % 256 = ASCII_RETURN_CARRIAGE)
    (h2 : e.trng_ok = false)
    (h3 : e2.read = ReadResult.ok b2) (hb2 : b2 % 256 = ASCII_RETURN_CARRIAGE) :
    outputs (loop_step e) = [] ∧
    loop_step e = [TrngEvent.acquire false] ∧
    run_loop (e :: es) = run_loop es ∧
    acquire_attempts (loop_step e2) = 1 := by
  have he : loop_step e = [TrngEvent.acquire false] := by
    simp [loop_step, h1, hb, h2, generate_password]
  have he2 : acquire_attempts (loop_step e2) = 1 := by
    rw [loop_step, h3]
    simp only [hb2, if_pos]
    cases e2.trng_ok <;>
      simp [generate_password, acquire_attempts, List.countP_cons]
  exact ⟨by simp [he, outputs], he, by simp [run_loop, he, outputs], he2⟩

theorem trng_failure_no_output_witness :
    outputs (loop_step env_cr_fail) = [] ∧
    loop_step env_cr_fail = [TrngEvent.acquire false] ∧
    run_loop [env_cr_fail] = run_loop [] ∧
    acquire_attempts (loop_step env_cr_ok) = 1 :=
  trng_failure_no_output env_cr_fail env_cr_ok [] 13 13 rfl (by decide) rfl
    rfl (by decide)

/-- C6: a successfully read byte equal to 0x0D makes the loop iteration
run generate_password exactly once — one acquisition attempt — while a
successfully read byte other than 0x0D produces no events at all, hence
zero observable output, and the loop simply keeps polling. -/
theorem trigger_dispatch (e : LoopEnv) (es : List LoopEnv) (b : Nat)
    (h : e.read = ReadResult.ok b) :
    (b % 256 = ASCII_RETURN_CARRIAGE →
      loop_step e = generate_password e.trng_ok e.words ∧
      acquire_attempts (loop_step e) = 1) ∧
    (b % 256 ≠ ASCII_RETURN_CARRIAGE →
      loop_step e = [] ∧ outputs (loop_step e) = [] ∧
      run_loop (e :: es) = run_loop es) := by
  constructor
  · intro hb
    have hstep : loop_step e = generate_password e.trng_ok e.words := by
      simp [loop_step, h, hb]
    refine ⟨hstep, ?_⟩
    rw [hstep]
    cases e.trng_ok <;>
      simp [generate_password, acquire_attempts, List.countP_cons]
  · intro hb
    have hstep : loop_step e = [] := by
      simp [loop_step, h, hb]
    exact ⟨hstep, by simp [hstep, outputs], by simp [run_loop, hstep, outputs]⟩

theorem trigger_dispatch_witness :
    loop_step env_cr_ok = generate_password env_cr_ok.trng_ok env_cr_ok.words ∧
    acquire_attempts (loop_step env_cr_ok) = 1 :=
  (trigger_dispatch env_cr_ok [] 13 rfl).1 (by decide)

/-- C8: whenever TRNG acquisition succeeds the handle is released
exactly once before generate_password returns; when acquisition fails no
release happens; and after any single iteration of the polling loop no
handle remains held, so the handle is never carried across iterations. -/
theorem trng_release_discipline (ws : Nat → Nat) (e : LoopEnv) :
    release_count (generate_password true ws) = 1 ∧
    release_count (generate_password false ws) = 0 ∧
    held_after (loop_step e) = 0 := by
  refine ⟨by simp [generate_password, release_count, List.countP_cons],
          by simp [generate_password, release_count, List.countP_cons], ?_⟩
  rcases e with ⟨r, ok, w⟩
  cases r with
  | err => simp [loop_step, held_after]
  | ok b =>
      by_cases hb : b % 256 = ASCII_RETURN_CARRIAGE
      · simp only [loop_step, hb, if_pos]
        cases ok <;> simp [generate_password, held_after]
      · simp [loop_step, hb, held_after]
